import Mathlib

/-!
Verification of the DailySpark icon-generation scripts.

The repository has two standalone Python scripts:

* `scripts/generate-icons.py` (the "vector variant"): rasterizes
  `public/favicon.svg` to a 512x512 base image via cairosvg (through a
  temporary file `public/temp_icon.png`), then resizes it to a fixed table
  of output sizes and writes each as ICO or PNG.
* `scripts/generate-simple-icons.py` (the "procedural/simple variant"):
  draws a sparkle-star icon procedurally with PIL at 512x512, saves it
  directly, then resizes it to the remaining sizes.

We embed both scripts as pure functions from an environment (which
dependencies are importable, which library calls raise) and an initial
file-system state to a run result: exit code, final file system, an event
trace, and which messages were printed.  File contents are modelled
symbolically, tracking provenance (which image was encoded, in which
format, with which options), which is exactly what the claims about the
pipeline refer to.  Paths are strings relative to each script's own root
directory (the two scripts resolve `public/` against different absolute
roots; all claims are per-variant, so the shared relative form is
faithful).

The star geometry of `draw_sparkle_star` is embedded separately: the
code places vertex `i` at
`(center + r*cos(a), center + r*sin(a))` with `a = (i*45 - 90)` degrees
and `r` an integer radius, so the vertex's distance from `(center,
center)` is `r` and its angle is `a`; we embed the polar data `(r, a)`
that the code computes.  `int(size * 0.35)` is embedded with exact
IEEE-754 binary64 semantics: the literal `0.35` denotes the nearest
double `6305039478318694 * 2^-54`, the product `size * 0.35` is that
double times `size` correctly rounded to 53 significant bits with
round-to-nearest, ties-to-even (the int-to-double conversion of `size`
is exact for `size < 2^53`, the domain within which the claims are
stated), and Python's `int(x)` truncates the nonnegative result toward
zero, i.e. floors it.  This reproduces, e.g., `int(512*0.35) = 179` and
`int(180*0.35) = 62` (the double product at 180 is slightly below 63).
-/

namespace DailySpark

/-! ## Star geometry (`draw_sparkle_star`, scripts/generate-simple-icons.py lines 34-45) -/

/-- The IEEE-754 binary64 value of the literal `0.35` is
`mant35 * 2^-54`: `0.35` is not a binary fraction, and the nearest
double has significand `0x16666666666666`. -/
def mant35 : Nat := 6305039478318694

/-- Bit length of a natural number, by fuelled structural recursion so
that it evaluates inside `decide` (fuel 128 covers every value below
`2^128`, far above the `size * mant35 < 2^107` arising here). -/
def bitLenAux : Nat → Nat → Nat
  | 0, _ => 0
  | fuel + 1, n => if n = 0 then 0 else bitLenAux fuel (n / 2) + 1

def bitLen (n : Nat) : Nat := bitLenAux 128 n

/-- Round `n * 2^-54` to 53 significant bits with round-to-nearest,
ties-to-even, returning `(q, s)` such that the rounded value is
`q * 2^(s-54)`.  This is the IEEE-754 binary64 rounding of the exact
product performed by a double multiplication (no overflow or subnormal
can occur in the range used here). -/
def roundNearestEven (n : Nat) : Nat × Nat :=
  if bitLen n ≤ 53 then (n, 0)
  else
    let s := bitLen n - 53
    let q := n / 2 ^ s
    let r := n % 2 ^ s
    let half := 2 ^ (s - 1)
    (if half < r ∨ (r = half ∧ q % 2 = 1) then q + 1 else q, s)

/-- The value `star_radius = int(size * 0.35)` (line 34), under exact
IEEE-754 double semantics: `size` converts exactly to a double (for
`size < 2^53`), the multiplication by the double nearest `0.35` is
correctly rounded to nearest-even, and `int()` truncates the
nonnegative result toward zero.  E.g. `star_radius 512 = 179` and
`star_radius 180 = 62` (the double product `180 * 0.35` is
`62.99999999999999...`). -/
def star_radius (size : Nat) : Nat :=
  let p := roundNearestEven (size * mant35)
  p.1 * 2 ^ p.2 / 2 ^ 54

/-- The radius used for vertex `i` of the star polygon:
`star_radius` for even `i` ("main points"), `int(star_radius * 0.5)`
for odd `i` (lines 40-41).  Since `star_radius size < 2^53`, its
conversion to double is exact and multiplying by `0.5` is an exact
exponent decrement, so `int(star_radius * 0.5)` is exactly
`star_radius / 2` in floor division. -/
def starPointRadius (size i : Nat) : Nat :=
  if i % 2 = 0 then star_radius size else star_radius size / 2

/-- The angle, in degrees, used for vertex `i`: `i * 45 - 90` (line 39). -/
def starPointAngleDeg (i : Nat) : Int := (i : Int) * 45 - 90

/-- The polar description `(radius, angle-in-degrees)` of the 8 vertices of
the star polygon, as computed by the loop at lines 38-45: vertex `i` is
placed at `(center + r*cos a, center + r*sin a)`, hence at distance `r`
from `(center, center)` and at angle `a`. -/
def starPoints (size : Nat) : List (Nat × Int) :=
  (List.range 8).map (fun i => (starPointRadius size i, starPointAngleDeg i))

/-! ## Images, encoded file contents, file system -/

/-- The one resampling filter the scripts use (`Image.Resampling.LANCZOS`). -/
inductive ResampleFilter
  | lanczos
deriving DecidableEq

/-- In-memory raster images, tracked by provenance. -/
inductive Image
  /-- The result of `cairosvg.svg2png` on an SVG source, read back with
  `Image.open` (vector variant). -/
  | rasterizedSvg (svg : String) (w h : Nat)
  /-- The canvas produced by `draw_sparkle_star(size)` (simple variant). -/
  | sparkleCanvas (size : Nat)
  /-- The result of `base.resize((w, h), filter)`. -/
  | resized (base : Image) (w h : Nat) (f : ResampleFilter)
deriving DecidableEq

def Image.width : Image → Nat
  | .rasterizedSvg _ w _ => w
  | .sparkleCanvas s => s
  | .resized _ w _ _ => w

def Image.height : Image → Nat
  | .rasterizedSvg _ _ h => h
  | .sparkleCanvas s => s
  | .resized _ _ h _ => h

/-- Encoded file contents on disk, tracked by provenance. -/
inductive Bytes
  /-- An SVG source file's text. -/
  | svgFile (content : String)
  /-- A PNG written by `img.save(path, "PNG", ...)`; `optimize` records
  whether `optimize=True` was passed. -/
  | pngFile (img : Image) (optimize : Bool)
  /-- An ICO written by `img.save(path, "ICO", ...)`; `sizes` records the
  `sizes=` keyword if one was passed. -/
  | icoFile (img : Image) (sizes : Option (List (Nat × Nat)))
  /-- The PNG that `cairosvg.svg2png(write_to=...)` writes. -/
  | cairoPng (img : Image)
  /-- Arbitrary other pre-existing file content. -/
  | blob (n : Nat)
deriving DecidableEq

/-- Pixel dimensions of an image file's content, when it is one. -/
def Bytes.dims : Bytes → Option (Nat × Nat)
  | .pngFile img _ => some (img.width, img.height)
  | .icoFile img _ => some (img.width, img.height)
  | .cairoPng img => some (img.width, img.height)
  | .svgFile _ => none
  | .blob _ => none

/-- The optimize flag of a PNG file content, when it is a PNG. -/
def Bytes.pngOptimize : Bytes → Option Bool
  | .pngFile _ o => some o
  | _ => none

/-- Is this file content in the ICO container format? -/
def Bytes.isIco : Bytes → Bool
  | .icoFile _ _ => true
  | _ => false

/-- Insert a directory into a directory list if not already present
(`mkdir(exist_ok=True)`). -/
def insertDir (d : String) (l : List String) : List String :=
  if d ∈ l then l else l ++ [d]

/-- File-system state: file contents by path, plus existing directories. -/
structure FS where
  files : String → Option Bytes
  dirs : List String

/-- Overwrite (or create) the file at `p` with content `b`. -/
def FS.write (fs : FS) (p : String) (b : Bytes) : FS :=
  ⟨fun q => if q = p then some b else fs.files q, fs.dirs⟩

/-- Delete the file at `p` (`Path.unlink`). -/
def FS.erase (fs : FS) (p : String) : FS :=
  ⟨fun q => if q = p then none else fs.files q, fs.dirs⟩

/-- The effect of `ICONS_DIR.mkdir(parents=True, exist_ok=True)`: create `public` and
`public/icons`, idempotently. -/
def FS.mkdirIcons (fs : FS) : FS :=
  ⟨fs.files, insertDir "public/icons" (insertDir "public" fs.dirs)⟩

/-! ## Run environment and observable result -/

/-- Environment of a run: which imports succeed and which library calls
raise.  `saveFails p` means the resize-and-save of the output file at
path `p` raises (e.g. a disk write error); `rasterFails` means
`cairosvg.svg2png` raises; `drawFails` means `draw_sparkle_star` raises. -/
structure Env where
  pillow : Bool
  cairosvg : Bool
  rasterFails : Bool
  drawFails : Bool
  saveFails : String → Bool

/-- Events of a run, in order: the operations the script performed. -/
inductive Ev
  | mkdirIcons
  | checkSvg (present : Bool)
  | rasterize
  | openBase
  | drawBase
  | resample (file : String) (w h : Nat)
  | save (file : String)
  | unlinkTemp
deriving DecidableEq

/-- Observable result of a run: process exit code, final file system,
event trace, whether the dependency-installation instructions were
printed by the script, and whether an error message was printed. -/
structure RunResult where
  exitCode : Nat
  fs : FS
  trace : List Ev
  instructionsPrinted : Bool
  errorPrinted : Bool

/-! ## The vector variant: scripts/generate-icons.py -/

/-- The SIZES dict (lines 28-33): output file name and (width, height). -/
def SIZES : List (String × Nat × Nat) :=
  [("favicon.ico", 64, 64),
   ("icons/apple-touch-icon.png", 180, 180),
   ("icons/icon-192x192.png", 192, 192),
   ("icons/icon-512x512.png", 512, 512)]

/-- The path `output_path = PUBLIC_DIR / filename`. -/
def outPath (f : String) : String := "public/" ++ f

/-- Python `s.endswith(suffix)`, modelled over the character list. -/
def endsWithStr (s suffix : String) : Bool := suffix.data.isSuffixOf s.data

/-- The call `cairosvg.svg2png(url=..., output_width=512, output_height=512)` read
back by `Image.open`: succeeds on an existing SVG file unless the
environment makes rasterization raise. -/
def rasterize (env : Env) (b : Bytes) : Option Image :=
  if env.rasterFails then none
  else match b with
    | .svgFile s => some (.rasterizedSvg s 512 512)
    | _ => none

/-- The per-entry loop of generate-icons.py (lines 55-68): resize the base
with Lanczos, then save as ICO (with `sizes=[(w, h)]`) if the name ends in
`.ico`, else as PNG with `optimize=True`.  Returns whether all entries
succeeded, the file system, and the accumulated trace; a raising save
aborts the loop (the exception propagates to the top-level handler). -/
def writeEntriesV (env : Env) (base : Image) :
    List (String × Nat × Nat) → FS → List Ev → Bool × FS × List Ev
  | [], fs, tr => (true, fs, tr)
  | (f, w, h) :: rest, fs, tr =>
    let tr2 := tr ++ [Ev.resample f w h]
    let r := Image.resized base w h ResampleFilter.lanczos
    if env.saveFails (outPath f) then (false, fs, tr2)
    else
      let data : Bytes :=
        if endsWithStr f ".ico" then .icoFile r (some [(w, h)]) else .pngFile r true
      writeEntriesV env base rest (fs.write (outPath f) data) (tr2 ++ [Ev.save f])

/-- The whole of scripts/generate-icons.py as a function of the
environment and the initial file system. -/
def generateIcons (env : Env) (fs0 : FS) : RunResult :=
  if env.pillow && env.cairosvg then
    let fs1 := fs0.mkdirIcons
    match fs1.files "public/favicon.svg" with
    | none =>
      { exitCode := 1, fs := fs1, trace := [Ev.mkdirIcons, Ev.checkSvg false],
        instructionsPrinted := false, errorPrinted := true }
    | some src =>
      match rasterize env src with
      | none =>
        { exitCode := 1, fs := fs1,
          trace := [Ev.mkdirIcons, Ev.checkSvg true, Ev.rasterize],
          instructionsPrinted := false, errorPrinted := true }
      | some base =>
        let fs2 := fs1.write "public/temp_icon.png" (.cairoPng base)
        match writeEntriesV env base SIZES fs2
            [Ev.mkdirIcons, Ev.checkSvg true, Ev.rasterize, Ev.openBase] with
        | (true, fs3, tr) =>
          { exitCode := 0, fs := fs3.erase "public/temp_icon.png",
            trace := tr ++ [Ev.unlinkTemp],
            instructionsPrinted := false, errorPrinted := false }
        | (false, fs3, tr) =>
          { exitCode := 1, fs := fs3, trace := tr,
            instructionsPrinted := false, errorPrinted := true }
  else
    { exitCode := 1, fs := fs0, trace := [],
      instructionsPrinted := true, errorPrinted := true }

/-! ## The simple variant: scripts/generate-simple-icons.py -/

/-- The sizes dict of generate-simple-icons.py (lines 87-91), in dict
order; the 512x512 file is written before this loop. -/
def simpleSizes : List (String × Nat) :=
  [("favicon.ico", 64),
   ("icons/icon-192x192.png", 192),
   ("icons/apple-touch-icon.png", 180)]

/-- The per-entry loop of generate-simple-icons.py (lines 93-106): resize
with Lanczos, save as ICO (no `sizes=` keyword) if the name ends in
`.ico`, else as PNG with no `optimize` option. -/
def writeEntriesS (env : Env) (base : Image) :
    List (String × Nat) → FS → List Ev → Bool × FS × List Ev
  | [], fs, tr => (true, fs, tr)
  | (f, n) :: rest, fs, tr =>
    let tr2 := tr ++ [Ev.resample f n n]
    let r := Image.resized base n n ResampleFilter.lanczos
    if env.saveFails (outPath f) then (false, fs, tr2)
    else
      let data : Bytes :=
        if endsWithStr f ".ico" then .icoFile r none else .pngFile r false
      writeEntriesS env base rest (fs.write (outPath f) data) (tr2 ++ [Ev.save f])

/-- The whole of scripts/generate-simple-icons.py as a function of the
environment and the initial file system.  The import at line 7 is not
wrapped in try/except: a missing PIL is an unhandled `ImportError`
(interpreter traceback, exit code 1, no script output). -/
def generateSimpleIcons (env : Env) (fs0 : FS) : RunResult :=
  if env.pillow then
    let fs1 := fs0.mkdirIcons
    if env.drawFails then
      { exitCode := 1, fs := fs1, trace := [Ev.mkdirIcons],
        instructionsPrinted := false, errorPrinted := true }
    else
      let base := Image.sparkleCanvas 512
      if env.saveFails "public/icons/icon-512x512.png" then
        { exitCode := 1, fs := fs1, trace := [Ev.mkdirIcons, Ev.drawBase],
          instructionsPrinted := false, errorPrinted := true }
      else
        let fs2 := fs1.write "public/icons/icon-512x512.png" (.pngFile base false)
        match writeEntriesS env base simpleSizes fs2
            [Ev.mkdirIcons, Ev.drawBase, Ev.save "icons/icon-512x512.png"] with
        | (true, fs3, tr) =>
          { exitCode := 0, fs := fs3, trace := tr,
            instructionsPrinted := false, errorPrinted := false }
        | (false, fs3, tr) =>
          { exitCode := 1, fs := fs3, trace := tr,
            instructionsPrinted := false, errorPrinted := true }
  else
    { exitCode := 1, fs := fs0, trace := [],
      instructionsPrinted := false, errorPrinted := false }

/-! ## Closed forms of successful runs, and shared helper lemmas -/

/-- The base image of a successful vector-variant run on SVG content `s`. -/
def vBase (s : String) : Image := .rasterizedSvg s 512 512

/-- The final file system of a successful vector-variant run: the temp PNG
and the four outputs are written in table order, then the temp is deleted. -/
def vSuccessFS (fs0 : FS) (base : Image) : FS :=
  (((((fs0.mkdirIcons.write "public/temp_icon.png" (.cairoPng base)).write
      "public/favicon.ico" (.icoFile (.resized base 64 64 .lanczos) (some [(64, 64)]))).write
      "public/icons/apple-touch-icon.png" (.pngFile (.resized base 180 180 .lanczos) true)).write
      "public/icons/icon-192x192.png" (.pngFile (.resized base 192 192 .lanczos) true)).write
      "public/icons/icon-512x512.png" (.pngFile (.resized base 512 512 .lanczos) true)).erase
      "public/temp_icon.png"

/-- The final file system of a successful simple-variant run: the 512 base
is saved directly, then the three resized outputs in dict order. -/
def sSuccessFS (fs0 : FS) : FS :=
  (((fs0.mkdirIcons.write "public/icons/icon-512x512.png" (.pngFile (.sparkleCanvas 512) false)).write
      "public/favicon.ico" (.icoFile (.resized (.sparkleCanvas 512) 64 64 .lanczos) none)).write
      "public/icons/icon-192x192.png" (.pngFile (.resized (.sparkleCanvas 512) 192 192 .lanczos) false)).write
      "public/icons/apple-touch-icon.png" (.pngFile (.resized (.sparkleCanvas 512) 180 180 .lanczos) false)

/-- The event trace of a successful vector-variant run. -/
def vSuccessTrace : List Ev :=
  [Ev.mkdirIcons, Ev.checkSvg true, Ev.rasterize, Ev.openBase,
   Ev.resample "favicon.ico" 64 64, Ev.save "favicon.ico",
   Ev.resample "icons/apple-touch-icon.png" 180 180, Ev.save "icons/apple-touch-icon.png",
   Ev.resample "icons/icon-192x192.png" 192 192, Ev.save "icons/icon-192x192.png",
   Ev.resample "icons/icon-512x512.png" 512 512, Ev.save "icons/icon-512x512.png",
   Ev.unlinkTemp]

/-- The event trace of a successful simple-variant run. -/
def sSuccessTrace : List Ev :=
  [Ev.mkdirIcons, Ev.drawBase, Ev.save "icons/icon-512x512.png",
   Ev.resample "favicon.ico" 64 64, Ev.save "favicon.ico",
   Ev.resample "icons/icon-192x192.png" 192 192, Ev.save "icons/icon-192x192.png",
   Ev.resample "icons/apple-touch-icon.png" 180 180, Ev.save "icons/apple-touch-icon.png"]

/-- The four output paths of the vector variant, in table order. -/
def vOutPaths : List String :=
  ["public/favicon.ico", "public/icons/apple-touch-icon.png",
   "public/icons/icon-192x192.png", "public/icons/icon-512x512.png"]

/-- The four output paths of the simple variant, in write order. -/
def sOutPaths : List String :=
  ["public/icons/icon-512x512.png", "public/favicon.ico",
   "public/icons/icon-192x192.png", "public/icons/apple-touch-icon.png"]

/-- The file contents the vector variant writes, in table order. -/
def vOutBytes (base : Image) : List Bytes :=
  [.icoFile (.resized base 64 64 .lanczos) (some [(64, 64)]),
   .pngFile (.resized base 180 180 .lanczos) true,
   .pngFile (.resized base 192 192 .lanczos) true,
   .pngFile (.resized base 512 512 .lanczos) true]

/-- The file contents the simple variant writes, in write order. -/
def sOutBytes : List Bytes :=
  [.pngFile (.sparkleCanvas 512) false,
   .icoFile (.resized (.sparkleCanvas 512) 64 64 .lanczos) none,
   .pngFile (.resized (.sparkleCanvas 512) 192 192 .lanczos) false,
   .pngFile (.resized (.sparkleCanvas 512) 180 180 .lanczos) false]

/-- An environment where both dependencies import and nothing raises. -/
def envAllOK : Env := ⟨true, true, false, false, fun _ => false⟩

/-- An empty file system. -/
def fsEmpty : FS := ⟨fun _ => none, []⟩

/-- A file system holding only `public/favicon.svg` with content `s`. -/
def fsWithSvg (s : String) : FS :=
  ⟨fun p => if p = "public/favicon.svg" then some (Bytes.svgFile s) else none, []⟩

lemma FS.ext' (a b : FS) (hf : a.files = b.files) (hd : a.dirs = b.dirs) : a = b := by
  cases a; cases b; cases hf; cases hd; rfl

lemma mem_insertDir_self (d : String) (l : List String) : d ∈ insertDir d l := by
  unfold insertDir; split
  · assumption
  · exact List.mem_append_right _ (List.mem_singleton.mpr rfl)

lemma mem_insertDir_of_mem (a d : String) (l : List String) (h : a ∈ l) :
    a ∈ insertDir d l := by
  unfold insertDir; split
  · exact h
  · exact List.mem_append_left _ h

lemma insertDir_of_mem (d : String) (l : List String) (h : d ∈ l) :
    insertDir d l = l := by
  unfold insertDir; exact if_pos h

/-- A successful vector-variant run in closed form. -/
lemma generateIcons_success (env : Env) (fs0 : FS) (s : String)
    (hp : env.pillow = true) (hc : env.cairosvg = true)
    (hr : env.rasterFails = false)
    (hs : env.saveFails = fun _ => false)
    (hsvg : fs0.files "public/favicon.svg" = some (Bytes.svgFile s)) :
    generateIcons env fs0 =
      { exitCode := 0, fs := vSuccessFS fs0 (vBase s), trace := vSuccessTrace,
        instructionsPrinted := false, errorPrinted := false } := by
  have hsvg1 : (fs0.mkdirIcons).files "public/favicon.svg" = some (Bytes.svgFile s) := hsvg
  simp only [generateIcons, hp, hc, Bool.and_self, if_true, hsvg1, rasterize, hr,
    Bool.false_eq_true, if_false, writeEntriesV, SIZES, outPath, hs,
    endsWithStr, vSuccessFS, vBase, vSuccessTrace]
  rfl

/-- A successful simple-variant run in closed form. -/
lemma generateSimpleIcons_success (env : Env) (fs0 : FS)
    (hp : env.pillow = true) (hd : env.drawFails = false)
    (hs : env.saveFails = fun _ => false) :
    generateSimpleIcons env fs0 =
      { exitCode := 0, fs := sSuccessFS fs0, trace := sSuccessTrace,
        instructionsPrinted := false, errorPrinted := false } := by
  simp only [generateSimpleIcons, hp, if_true, hd, Bool.false_eq_true, if_false,
    writeEntriesS, simpleSizes, outPath, hs, endsWithStr, sSuccessFS, sSuccessTrace]
  rfl

/-! ## Further environments for concrete instantiation -/

/-- An environment where PIL is missing. -/
def envNoPillow : Env := ⟨false, true, false, false, fun _ => false⟩

/-- An environment where saving `public/favicon.ico` (first vector-variant
entry) and `public/icons/icon-512x512.png` (first simple-variant write)
raise, and everything else works. -/
def envFailFirst : Env :=
  ⟨true, true, false, false,
   fun p => p == "public/favicon.ico" || p == "public/icons/icon-512x512.png"⟩

/-! ## Dirs preservation lemmas -/

lemma writeEntriesV_dirs (env : Env) (base : Image) :
    ∀ (l : List (String × Nat × Nat)) (fs : FS) (tr : List Ev),
      ((writeEntriesV env base l fs tr).2.1).dirs = fs.dirs := by
  intro l
  induction l with
  | nil => intro fs tr; rfl
  | cons e rest ih =>
    intro fs tr
    obtain ⟨f, w, h⟩ := e
    by_cases hf : env.saveFails (outPath f) = true
    · simp [writeEntriesV, hf]
    · simp only [Bool.not_eq_true] at hf
      simp [writeEntriesV, hf, ih, FS.write]

lemma writeEntriesS_dirs (env : Env) (base : Image) :
    ∀ (l : List (String × Nat)) (fs : FS) (tr : List Ev),
      ((writeEntriesS env base l fs tr).2.1).dirs = fs.dirs := by
  intro l
  induction l with
  | nil => intro fs tr; rfl
  | cons e rest ih =>
    intro fs tr
    obtain ⟨f, n⟩ := e
    by_cases hf : env.saveFails (outPath f) = true
    · simp [writeEntriesS, hf]
    · simp only [Bool.not_eq_true] at hf
      simp [writeEntriesS, hf, ih, FS.write]

lemma generateIcons_dirs (env : Env) (fs0 : FS)
    (hp : env.pillow = true) (hc : env.cairosvg = true) :
    (generateIcons env fs0).fs.dirs = (fs0.mkdirIcons).dirs := by
  simp only [generateIcons, hp, hc, Bool.and_self, if_true]
  cases hm : (fs0.mkdirIcons).files "public/favicon.svg" with
  | none => rfl
  | some b =>
    cases hrz : rasterize env b with
    | none => simp only [hrz]
    | some base =>
      simp only [hrz]
      have hd := writeEntriesV_dirs env base SIZES
        ((fs0.mkdirIcons).write "public/temp_icon.png" (.cairoPng base))
        [Ev.mkdirIcons, Ev.checkSvg true, Ev.rasterize, Ev.openBase]
      rcases hw : writeEntriesV env base SIZES
        ((fs0.mkdirIcons).write "public/temp_icon.png" (.cairoPng base))
        [Ev.mkdirIcons, Ev.checkSvg true, Ev.rasterize, Ev.openBase] with ⟨ok, fs3, tr⟩
      rw [hw] at hd
      cases ok
      · exact hd
      · exact hd

lemma generateSimpleIcons_dirs (env : Env) (fs0 : FS) (hp : env.pillow = true) :
    (generateSimpleIcons env fs0).fs.dirs = (fs0.mkdirIcons).dirs := by
  simp only [generateSimpleIcons, hp, if_true]
  by_cases hdr : env.drawFails = true
  · simp [hdr]
  · simp only [Bool.not_eq_true] at hdr
    simp only [hdr, Bool.false_eq_true, if_false]
    by_cases h5 : env.saveFails "public/icons/icon-512x512.png" = true
    · simp [h5]
    · simp only [Bool.not_eq_true] at h5
      simp only [h5, Bool.false_eq_true, if_false]
      have hd := writeEntriesS_dirs env (Image.sparkleCanvas 512) simpleSizes
        ((fs0.mkdirIcons).write "public/icons/icon-512x512.png"
          (.pngFile (.sparkleCanvas 512) false))
        [Ev.mkdirIcons, Ev.drawBase, Ev.save "icons/icon-512x512.png"]
      rcases hw : writeEntriesS env (Image.sparkleCanvas 512) simpleSizes
        ((fs0.mkdirIcons).write "public/icons/icon-512x512.png"
          (.pngFile (.sparkleCanvas 512) false))
        [Ev.mkdirIcons, Ev.drawBase, Ev.save "icons/icon-512x512.png"] with ⟨ok, fs3, tr⟩
      rw [hw] at hd
      cases ok
      · exact hd
      · exact hd

lemma mkdirIcons_idem (fs : FS) : fs.mkdirIcons.mkdirIcons = fs.mkdirIcons := by
  refine FS.ext' _ _ ?hf ?hd
  case hf => rfl
  case hd =>
    show insertDir "public/icons" (insertDir "public"
        (insertDir "public/icons" (insertDir "public" fs.dirs))) = _
    rw [insertDir_of_mem "public" _
          (mem_insertDir_of_mem _ _ _ (mem_insertDir_self _ _)),
        insertDir_of_mem "public/icons" _ (mem_insertDir_self _ _)]
    rfl

lemma mkdirIcons_dirs_idem (fs : FS) :
    (fs.mkdirIcons.mkdirIcons).dirs = (fs.mkdirIcons).dirs :=
  congrArg FS.dirs (mkdirIcons_idem fs)

/-! ## C2 -/

/-- Claim C2: (counterexample to the claim as stated): the claim puts the
even-index star vertices at distance `0.35*S` from the center; at
`S = 512` the code computes `int(512 * 0.35) = 179`, while
`0.35 * 512 = 179.2`. -/
theorem C2_counterexample : (starPointRadius 512 0 : ℚ) ≠ 35 / 100 * 512 := by
  have h : starPointRadius 512 0 = 179 := by decide
  rw [h]; norm_num

/-- Claim C2: (amended): for any canvas size `S < 2^53` (the range in
which the int-to-double conversion is exact), vertex `i` of the star
polygon (for `i < 8`) lies at distance `int(S * 0.35)` from the canvas
center when `i` is even — computed in IEEE-754 double arithmetic, which
is `star_radius S` here, e.g. `179` at `S = 512` and `62` at `S = 180`,
not the exact `0.35 * S` — and at `int(star_radius * 0.5)`, i.e.
`star_radius S / 2`, when `i` is odd, at angle `i*45 - 90` degrees,
i.e. at the angles `-90, -45, 0, 45, 90, 135, 180, 225` respectively. -/
theorem C2_theorem (S i : Nat) (hS : S < 2 ^ 53) (hi : i < 8) :
    (starPoints S)[i]? =
      some (if i % 2 = 0 then star_radius S else star_radius S / 2,
            ([-90, -45, 0, 45, 90, 135, 180, 225] : List Int).getD i 0) := by
  interval_cases i <;> rfl

/-- Claim C2: witness: the amended statement at `S = 180`, `i = 0`,
where the IEEE-double radius is `62` (the exact product `0.35 * 180 =
63` differs: the double product rounds just below `63`). -/
theorem C2_witness :
    180 < 2 ^ 53 ∧ 0 < 8 ∧ star_radius 180 = 62 ∧ star_radius 512 = 179 ∧
    (starPoints 180)[0]? =
      some (if 0 % 2 = 0 then star_radius 180 else star_radius 180 / 2,
            ([-90, -45, 0, 45, 90, 135, 180, 225] : List Int).getD 0 0) :=
  ⟨by decide, by decide, by decide, by decide, C2_theorem 180 0 (by decide) (by decide)⟩

/-! ## C3 -/

/-- Claim C3: in the vector variant, when both imports succeed but
`public/favicon.svg` does not exist, the process exits non-zero and the
file contents of the file system are completely unchanged (in particular
no file of the size table is created). -/
theorem C3_theorem (env : Env) (fs0 : FS)
    (hp : env.pillow = true) (hc : env.cairosvg = true)
    (hsvg : fs0.files "public/favicon.svg" = none) :
    (generateIcons env fs0).exitCode ≠ 0 ∧
    (generateIcons env fs0).fs.files = fs0.files := by
  simp [generateIcons, hp, hc, FS.mkdirIcons, hsvg]

/-- Claim C3: witness: a run on an empty file system. -/
theorem C3_witness :
    envAllOK.pillow = true ∧ envAllOK.cairosvg = true ∧
    fsEmpty.files "public/favicon.svg" = none ∧
    ((generateIcons envAllOK fsEmpty).exitCode ≠ 0 ∧
     (generateIcons envAllOK fsEmpty).fs.files = fsEmpty.files) :=
  ⟨rfl, rfl, rfl, C3_theorem envAllOK fsEmpty rfl rfl rfl⟩

/-! ## C8 -/

/-- Claim C8: (counterexample to the claim as stated): the claim says a
missing dependency makes the process print installation instructions in
both variants; in the simple variant the import is not guarded, so a
missing PIL is an unhandled `ImportError` and no instructions are
printed (the process still exits non-zero with no work done). -/
theorem C8_counterexample :
    (generateSimpleIcons envNoPillow fsEmpty).instructionsPrinted = false ∧
    (generateSimpleIcons envNoPillow fsEmpty).exitCode = 1 := by decide

/-- Claim C8: (amended): with a required dependency missing at startup, both
variants exit non-zero having touched no file or directory; the vector
variant prints installation instructions, the simple variant does not
(its import is unguarded, so the interpreter prints a traceback). -/
theorem C8_theorem (env : Env) (fs0 : FS)
    (hdeps : (env.pillow && env.cairosvg) = false) :
    ((generateIcons env fs0).exitCode = 1 ∧
     (generateIcons env fs0).instructionsPrinted = true ∧
     (generateIcons env fs0).fs = fs0) ∧
    (env.pillow = false →
      (generateSimpleIcons env fs0).exitCode = 1 ∧
      (generateSimpleIcons env fs0).instructionsPrinted = false ∧
      (generateSimpleIcons env fs0).fs = fs0) := by
  constructor
  · simp [generateIcons, hdeps]
  · intro hpil; simp [generateSimpleIcons, hpil]

/-- Claim C8: witness: PIL missing. -/
theorem C8_witness :
    (envNoPillow.pillow && envNoPillow.cairosvg) = false ∧
    (((generateIcons envNoPillow fsEmpty).exitCode = 1 ∧
      (generateIcons envNoPillow fsEmpty).instructionsPrinted = true ∧
      (generateIcons envNoPillow fsEmpty).fs = fsEmpty) ∧
     (envNoPillow.pillow = false →
       (generateSimpleIcons envNoPillow fsEmpty).exitCode = 1 ∧
       (generateSimpleIcons envNoPillow fsEmpty).instructionsPrinted = false ∧
       (generateSimpleIcons envNoPillow fsEmpty).fs = fsEmpty)) :=
  ⟨rfl, C8_theorem envNoPillow fsEmpty rfl⟩

/-! ## C10 -/

/-- Claim C10: in both variants (once the imports succeed) the icons
directory is created, with its parent, before the input check and the
drawing: it is present in every final state, and in the vector variant
it exists even when the run fails because the SVG source is absent, in
which case the trace is exactly mkdir followed by the failed input
check.  Creation is idempotent. -/
theorem C10_theorem (env : Env) (fs0 : FS)
    (hp : env.pillow = true) (hc : env.cairosvg = true) :
    ("public/icons" ∈ (generateIcons env fs0).fs.dirs ∧
     "public" ∈ (generateIcons env fs0).fs.dirs) ∧
    ("public/icons" ∈ (generateSimpleIcons env fs0).fs.dirs ∧
     "public" ∈ (generateSimpleIcons env fs0).fs.dirs) ∧
    (fs0.files "public/favicon.svg" = none →
      (generateIcons env fs0).exitCode ≠ 0 ∧
      "public/icons" ∈ (generateIcons env fs0).fs.dirs ∧
      (generateIcons env fs0).trace = [Ev.mkdirIcons, Ev.checkSvg false]) ∧
    fs0.mkdirIcons.mkdirIcons = fs0.mkdirIcons := by
  have hv := generateIcons_dirs env fs0 hp hc
  have hs := generateSimpleIcons_dirs env fs0 hp
  have hmem : "public/icons" ∈ (fs0.mkdirIcons).dirs ∧
      "public" ∈ (fs0.mkdirIcons).dirs := by
    constructor
    · exact mem_insertDir_self _ _
    · exact mem_insertDir_of_mem _ _ _ (mem_insertDir_self _ _)
  refine ⟨⟨hv ▸ hmem.1, hv ▸ hmem.2⟩, ⟨hs ▸ hmem.1, hs ▸ hmem.2⟩, ?_, mkdirIcons_idem fs0⟩
  intro hsvg
  refine ⟨?_, hv ▸ hmem.1, ?_⟩
  · simp [generateIcons, hp, hc, FS.mkdirIcons, hsvg]
  · simp [generateIcons, hp, hc, FS.mkdirIcons, hsvg]

/-- Claim C10: witness: a run with the SVG absent. -/
theorem C10_witness :
    envAllOK.pillow = true ∧ envAllOK.cairosvg = true ∧
    (("public/icons" ∈ (generateIcons envAllOK fsEmpty).fs.dirs ∧
      "public" ∈ (generateIcons envAllOK fsEmpty).fs.dirs) ∧
     ("public/icons" ∈ (generateSimpleIcons envAllOK fsEmpty).fs.dirs ∧
      "public" ∈ (generateSimpleIcons envAllOK fsEmpty).fs.dirs) ∧
     (fsEmpty.files "public/favicon.svg" = none →
       (generateIcons envAllOK fsEmpty).exitCode ≠ 0 ∧
       "public/icons" ∈ (generateIcons envAllOK fsEmpty).fs.dirs ∧
       (generateIcons envAllOK fsEmpty).trace = [Ev.mkdirIcons, Ev.checkSvg false]) ∧
     fsEmpty.mkdirIcons.mkdirIcons = fsEmpty.mkdirIcons) :=
  ⟨rfl, rfl, C10_theorem envAllOK fsEmpty rfl rfl⟩

/-! ## C1 -/

/-- Claim C1: with all dependencies and the input present and no library
call raising, each variant exits 0 and produces exactly the four output
files of the size table, each with exactly the table's pixel dimensions:
every other path (apart from the vector variant's temporary file, which
is deleted) is left unchanged. -/
theorem C1_theorem (env : Env) (fs0 : FS) (s : String)
    (hp : env.pillow = true) (hc : env.cairosvg = true)
    (hr : env.rasterFails = false) (hd : env.drawFails = false)
    (hs : env.saveFails = fun _ => false)
    (hsvg : fs0.files "public/favicon.svg" = some (Bytes.svgFile s)) :
    ((generateIcons env fs0).exitCode = 0 ∧
     ((generateIcons env fs0).fs.files "public/favicon.ico").bind Bytes.dims = some (64, 64) ∧
     ((generateIcons env fs0).fs.files "public/icons/apple-touch-icon.png").bind Bytes.dims = some (180, 180) ∧
     ((generateIcons env fs0).fs.files "public/icons/icon-192x192.png").bind Bytes.dims = some (192, 192) ∧
     ((generateIcons env fs0).fs.files "public/icons/icon-512x512.png").bind Bytes.dims = some (512, 512) ∧
     (generateIcons env fs0).fs.files "public/temp_icon.png" = none ∧
     (∀ p : String, p ∉ vOutPaths → p ≠ "public/temp_icon.png" →
        (generateIcons env fs0).fs.files p = fs0.files p)) ∧
    ((generateSimpleIcons env fs0).exitCode = 0 ∧
     ((generateSimpleIcons env fs0).fs.files "public/favicon.ico").bind Bytes.dims = some (64, 64) ∧
     ((generateSimpleIcons env fs0).fs.files "public/icons/apple-touch-icon.png").bind Bytes.dims = some (180, 180) ∧
     ((generateSimpleIcons env fs0).fs.files "public/icons/icon-192x192.png").bind Bytes.dims = some (192, 192) ∧
     ((generateSimpleIcons env fs0).fs.files "public/icons/icon-512x512.png").bind Bytes.dims = some (512, 512) ∧
     (∀ p : String, p ∉ sOutPaths →
        (generateSimpleIcons env fs0).fs.files p = fs0.files p)) := by
  rw [generateIcons_success env fs0 s hp hc hr hs hsvg,
      generateSimpleIcons_success env fs0 hp hd hs]
  refine ⟨⟨rfl, ?_, ?_, ?_, ?_, ?_, ?_⟩, rfl, ?_, ?_, ?_, ?_, ?_⟩
  · simp [vSuccessFS, vBase, FS.write, FS.erase, FS.mkdirIcons, Bytes.dims,
      Image.width, Image.height]
  · simp [vSuccessFS, vBase, FS.write, FS.erase, FS.mkdirIcons, Bytes.dims,
      Image.width, Image.height]
  · simp [vSuccessFS, vBase, FS.write, FS.erase, FS.mkdirIcons, Bytes.dims,
      Image.width, Image.height]
  · simp [vSuccessFS, vBase, FS.write, FS.erase, FS.mkdirIcons, Bytes.dims,
      Image.width, Image.height]
  · simp [vSuccessFS, FS.write, FS.erase, FS.mkdirIcons]
  · intro p hmem hne
    simp only [vOutPaths, List.mem_cons, List.not_mem_nil, or_false] at hmem
    push_neg at hmem
    obtain ⟨h1, h2, h3, h4⟩ := hmem
    simp [vSuccessFS, FS.write, FS.erase, FS.mkdirIcons, h1, h2, h3, h4, hne]
  · simp [sSuccessFS, FS.write, FS.mkdirIcons, Bytes.dims, Image.width, Image.height]
  · simp [sSuccessFS, FS.write, FS.mkdirIcons, Bytes.dims, Image.width, Image.height]
  · simp [sSuccessFS, FS.write, FS.mkdirIcons, Bytes.dims, Image.width, Image.height]
  · simp [sSuccessFS, FS.write, FS.mkdirIcons, Bytes.dims, Image.width, Image.height]
  · intro p hmem
    simp only [sOutPaths, List.mem_cons, List.not_mem_nil, or_false] at hmem
    push_neg at hmem
    obtain ⟨h1, h2, h3, h4⟩ := hmem
    simp [sSuccessFS, FS.write, FS.mkdirIcons, h1, h2, h3, h4]

/-- Claim C1: witness: a fully successful run of each variant. -/
theorem C1_witness :
    envAllOK.pillow = true ∧ envAllOK.cairosvg = true ∧
    envAllOK.rasterFails = false ∧ envAllOK.drawFails = false ∧
    envAllOK.saveFails = (fun _ => false) ∧
    (fsWithSvg "icon").files "public/favicon.svg" = some (Bytes.svgFile "icon") ∧
    (((generateIcons envAllOK (fsWithSvg "icon")).exitCode = 0 ∧
      ((generateIcons envAllOK (fsWithSvg "icon")).fs.files "public/favicon.ico").bind Bytes.dims = some (64, 64) ∧
      ((generateIcons envAllOK (fsWithSvg "icon")).fs.files "public/icons/apple-touch-icon.png").bind Bytes.dims = some (180, 180) ∧
      ((generateIcons envAllOK (fsWithSvg "icon")).fs.files "public/icons/icon-192x192.png").bind Bytes.dims = some (192, 192) ∧
      ((generateIcons envAllOK (fsWithSvg "icon")).fs.files "public/icons/icon-512x512.png").bind Bytes.dims = some (512, 512) ∧
      (generateIcons envAllOK (fsWithSvg "icon")).fs.files "public/temp_icon.png" = none ∧
      (∀ p : String, p ∉ vOutPaths → p ≠ "public/temp_icon.png" →
         (generateIcons envAllOK (fsWithSvg "icon")).fs.files p = (fsWithSvg "icon").files p)) ∧
     ((generateSimpleIcons envAllOK (fsWithSvg "icon")).exitCode = 0 ∧
      ((generateSimpleIcons envAllOK (fsWithSvg "icon")).fs.files "public/favicon.ico").bind Bytes.dims = some (64, 64) ∧
      ((generateSimpleIcons envAllOK (fsWithSvg "icon")).fs.files "public/icons/apple-touch-icon.png").bind Bytes.dims = some (180, 180) ∧
      ((generateSimpleIcons envAllOK (fsWithSvg "icon")).fs.files "public/icons/icon-192x192.png").bind Bytes.dims = some (192, 192) ∧
      ((generateSimpleIcons envAllOK (fsWithSvg "icon")).fs.files "public/icons/icon-512x512.png").bind Bytes.dims = some (512, 512) ∧
      (∀ p : String, p ∉ sOutPaths →
         (generateSimpleIcons envAllOK (fsWithSvg "icon")).fs.files p = (fsWithSvg "icon").files p))) :=
  ⟨rfl, rfl, rfl, rfl, rfl, rfl,
   C1_theorem envAllOK (fsWithSvg "icon") "icon" rfl rfl rfl rfl rfl rfl⟩

/-! ## C6 -/

/-- Claim C6: (counterexample to the claim as stated): the claim says both
variants write non-`.ico` entries as PNG with size optimization enabled;
the simple variant's `save(output_path, "PNG")` passes no `optimize`
option, so its PNGs are written with optimization off. -/
theorem C6_counterexample :
    ((generateSimpleIcons envAllOK fsEmpty).fs.files
        "public/icons/icon-192x192.png").bind Bytes.pngOptimize = some false := by decide

/-- Claim C6: (amended): in both variants the encoding is chosen from the
output path's extension: the `.ico` entry is written in the ICO container
format and every other entry as PNG; the vector variant passes
`optimize=True` for its PNGs, the simple variant does not. -/
theorem C6_theorem (env : Env) (fs0 : FS) (s : String)
    (hp : env.pillow = true) (hc : env.cairosvg = true)
    (hr : env.rasterFails = false) (hd : env.drawFails = false)
    (hs : env.saveFails = fun _ => false)
    (hsvg : fs0.files "public/favicon.svg" = some (Bytes.svgFile s)) :
    (((generateIcons env fs0).fs.files "public/favicon.ico").map Bytes.isIco = some true ∧
     ((generateIcons env fs0).fs.files "public/icons/apple-touch-icon.png").bind Bytes.pngOptimize = some true ∧
     ((generateIcons env fs0).fs.files "public/icons/icon-192x192.png").bind Bytes.pngOptimize = some true ∧
     ((generateIcons env fs0).fs.files "public/icons/icon-512x512.png").bind Bytes.pngOptimize = some true) ∧
    (((generateSimpleIcons env fs0).fs.files "public/favicon.ico").map Bytes.isIco = some true ∧
     ((generateSimpleIcons env fs0).fs.files "public/icons/apple-touch-icon.png").bind Bytes.pngOptimize = some false ∧
     ((generateSimpleIcons env fs0).fs.files "public/icons/icon-192x192.png").bind Bytes.pngOptimize = some false ∧
     ((generateSimpleIcons env fs0).fs.files "public/icons/icon-512x512.png").bind Bytes.pngOptimize = some false) := by
  rw [generateIcons_success env fs0 s hp hc hr hs hsvg,
      generateSimpleIcons_success env fs0 hp hd hs]
  refine ⟨⟨?_, ?_, ?_, ?_⟩, ?_, ?_, ?_, ?_⟩ <;>
    simp [vSuccessFS, sSuccessFS, vBase, FS.write, FS.erase, FS.mkdirIcons,
      Bytes.isIco, Bytes.pngOptimize]

/-- Claim C6: witness: the amended statement on a concrete successful run. -/
theorem C6_witness :
    envAllOK.saveFails = (fun _ => false) ∧
    ((((generateIcons envAllOK (fsWithSvg "v")).fs.files "public/favicon.ico").map Bytes.isIco = some true ∧
      ((generateIcons envAllOK (fsWithSvg "v")).fs.files "public/icons/apple-touch-icon.png").bind Bytes.pngOptimize = some true ∧
      ((generateIcons envAllOK (fsWithSvg "v")).fs.files "public/icons/icon-192x192.png").bind Bytes.pngOptimize = some true ∧
      ((generateIcons envAllOK (fsWithSvg "v")).fs.files "public/icons/icon-512x512.png").bind Bytes.pngOptimize = some true) ∧
     (((generateSimpleIcons envAllOK (fsWithSvg "v")).fs.files "public/favicon.ico").map Bytes.isIco = some true ∧
      ((generateSimpleIcons envAllOK (fsWithSvg "v")).fs.files "public/icons/apple-touch-icon.png").bind Bytes.pngOptimize = some false ∧
      ((generateSimpleIcons envAllOK (fsWithSvg "v")).fs.files "public/icons/icon-192x192.png").bind Bytes.pngOptimize = some false ∧
      ((generateSimpleIcons envAllOK (fsWithSvg "v")).fs.files "public/icons/icon-512x512.png").bind Bytes.pngOptimize = some false)) :=
  ⟨rfl, C6_theorem envAllOK (fsWithSvg "v") "v" rfl rfl rfl rfl rfl rfl⟩

/-! ## C7 -/

/-- Claim C7: (counterexample to the claim as stated): the claim says that
in both variants the 512x512 entry is the base image saved directly with
no resampling step; in the vector variant the loop applies
`base_img.resize((512, 512), LANCZOS)` to that entry too (a resample
event occurs and the saved object is the resize result, not the base). -/
theorem C7_counterexample :
    Ev.resample "icons/icon-512x512.png" 512 512 ∈
      (generateIcons envAllOK (fsWithSvg "svg")).trace ∧
    (generateIcons envAllOK (fsWithSvg "svg")).fs.files "public/icons/icon-512x512.png" ≠
      some (Bytes.pngFile (vBase "svg") true) := by decide

/-- Claim C7: (amended): the simple variant saves its base image directly as
the 512x512 output, with no resample of that entry; the vector variant
passes the 512x512 entry through the same Lanczos resize call as every
other entry and saves the resize result. -/
theorem C7_theorem (env : Env) (fs0 : FS) (s : String)
    (hp : env.pillow = true) (hc : env.cairosvg = true)
    (hr : env.rasterFails = false) (hd : env.drawFails = false)
    (hs : env.saveFails = fun _ => false)
    (hsvg : fs0.files "public/favicon.svg" = some (Bytes.svgFile s)) :
    (generateIcons env fs0).fs.files "public/icons/icon-512x512.png" =
      some (.pngFile (.resized (vBase s) 512 512 .lanczos) true) ∧
    Ev.resample "icons/icon-512x512.png" 512 512 ∈ (generateIcons env fs0).trace ∧
    (generateSimpleIcons env fs0).fs.files "public/icons/icon-512x512.png" =
      some (.pngFile (.sparkleCanvas 512) false) ∧
    Ev.resample "icons/icon-512x512.png" 512 512 ∉ (generateSimpleIcons env fs0).trace ∧
    Ev.save "icons/icon-512x512.png" ∈ (generateSimpleIcons env fs0).trace := by
  rw [generateIcons_success env fs0 s hp hc hr hs hsvg,
      generateSimpleIcons_success env fs0 hp hd hs]
  refine ⟨?_, ?_, ?_, ?_, ?_⟩
  · simp [vSuccessFS, FS.write, FS.erase, FS.mkdirIcons]
  · show Ev.resample "icons/icon-512x512.png" 512 512 ∈ vSuccessTrace
    decide
  · simp [sSuccessFS, FS.write, FS.mkdirIcons]
  · show Ev.resample "icons/icon-512x512.png" 512 512 ∉ sSuccessTrace
    decide
  · show Ev.save "icons/icon-512x512.png" ∈ sSuccessTrace
    decide

/-- Claim C7: witness: the amended statement on a concrete successful run. -/
theorem C7_witness :
    envAllOK.pillow = true ∧
    (fsWithSvg "w").files "public/favicon.svg" = some (Bytes.svgFile "w") ∧
    ((generateIcons envAllOK (fsWithSvg "w")).fs.files "public/icons/icon-512x512.png" =
       some (.pngFile (.resized (vBase "w") 512 512 .lanczos) true) ∧
     Ev.resample "icons/icon-512x512.png" 512 512 ∈ (generateIcons envAllOK (fsWithSvg "w")).trace ∧
     (generateSimpleIcons envAllOK (fsWithSvg "w")).fs.files "public/icons/icon-512x512.png" =
       some (.pngFile (.sparkleCanvas 512) false) ∧
     Ev.resample "icons/icon-512x512.png" 512 512 ∉ (generateSimpleIcons envAllOK (fsWithSvg "w")).trace ∧
     Ev.save "icons/icon-512x512.png" ∈ (generateSimpleIcons envAllOK (fsWithSvg "w")).trace) :=
  ⟨rfl, rfl, C7_theorem envAllOK (fsWithSvg "w") "w" rfl rfl rfl rfl rfl rfl⟩

/-! ## C4 -/

/-- Claim C4: both variants are idempotent: running the generator a second
time on the file system left by a successful first run overwrites every
output with identical content, leaving the file system unchanged (the
pipeline is a deterministic function of the environment and the SVG
content, and each run fully overwrites its outputs). -/
theorem C4_theorem (env : Env) (fs0 : FS) (s : String)
    (hp : env.pillow = true) (hc : env.cairosvg = true)
    (hr : env.rasterFails = false) (hd : env.drawFails = false)
    (hs : env.saveFails = fun _ => false)
    (hsvg : fs0.files "public/favicon.svg" = some (Bytes.svgFile s)) :
    (generateIcons env (generateIcons env fs0).fs).fs = (generateIcons env fs0).fs ∧
    (generateSimpleIcons env (generateSimpleIcons env fs0).fs).fs =
      (generateSimpleIcons env fs0).fs := by
  rw [generateIcons_success env fs0 s hp hc hr hs hsvg,
      generateSimpleIcons_success env fs0 hp hd hs]
  constructor
  · have hsvg2 : (vSuccessFS fs0 (vBase s)).files "public/favicon.svg" =
        some (Bytes.svgFile s) := by
      simp [vSuccessFS, FS.write, FS.erase, FS.mkdirIcons, hsvg]
    show (generateIcons env (vSuccessFS fs0 (vBase s))).fs = vSuccessFS fs0 (vBase s)
    rw [generateIcons_success env _ s hp hc hr hs hsvg2]
    show vSuccessFS (vSuccessFS fs0 (vBase s)) (vBase s) = vSuccessFS fs0 (vBase s)
    refine FS.ext' _ _ ?_ ?_
    · funext q
      simp only [vSuccessFS, FS.write, FS.erase, FS.mkdirIcons]
      split_ifs <;> rfl
    · exact mkdirIcons_dirs_idem fs0
  · show (generateSimpleIcons env (sSuccessFS fs0)).fs = sSuccessFS fs0
    rw [generateSimpleIcons_success env _ hp hd hs]
    show sSuccessFS (sSuccessFS fs0) = sSuccessFS fs0
    refine FS.ext' _ _ ?_ ?_
    · funext q
      simp only [sSuccessFS, FS.write, FS.mkdirIcons]
      split_ifs <;> rfl
    · exact mkdirIcons_dirs_idem fs0

/-- Claim C4: witness: a concrete pair of back-to-back runs. -/
theorem C4_witness :
    envAllOK.pillow = true ∧
    (fsWithSvg "z").files "public/favicon.svg" = some (Bytes.svgFile "z") ∧
    ((generateIcons envAllOK (generateIcons envAllOK (fsWithSvg "z")).fs).fs =
       (generateIcons envAllOK (fsWithSvg "z")).fs ∧
     (generateSimpleIcons envAllOK (generateSimpleIcons envAllOK (fsWithSvg "z")).fs).fs =
       (generateSimpleIcons envAllOK (fsWithSvg "z")).fs) :=
  ⟨rfl, rfl, C4_theorem envAllOK (fsWithSvg "z") "z" rfl rfl rfl rfl rfl rfl⟩

/-! ## C9 -/

lemma writeEntriesV_files_stable (env : Env) (base : Image) (p : String) :
    ∀ (l : List (String × Nat × Nat)) (fs : FS) (tr : List Ev),
      (∀ e ∈ l, outPath e.1 ≠ p) →
      ((writeEntriesV env base l fs tr).2.1).files p = fs.files p := by
  intro l
  induction l with
  | nil => intro fs tr _; rfl
  | cons a rest ih =>
    intro fs tr hne
    obtain ⟨f, w, h⟩ := a
    by_cases hf : env.saveFails (outPath f) = true
    · simp [writeEntriesV, hf]
    · simp only [Bool.not_eq_true] at hf
      have hfp : outPath f ≠ p := hne (f, w, h) (List.mem_cons_self _ _)
      simp only [writeEntriesV, hf, Bool.false_eq_true, if_false]
      rw [ih _ _ (fun e he => hne e (List.mem_cons_of_mem _ he))]
      simp [FS.write, Ne.symm hfp]

lemma writeEntriesV_fails_of (env : Env) (base : Image) :
    ∀ (l : List (String × Nat × Nat)) (fs : FS) (tr : List Ev),
      (∃ e ∈ l, env.saveFails (outPath e.1) = true) →
      (writeEntriesV env base l fs tr).1 = false := by
  intro l
  induction l with
  | nil =>
    rintro fs tr ⟨e, he, -⟩
    exact absurd he (List.not_mem_nil e)
  | cons a rest ih =>
    rintro fs tr ⟨e, he, hef⟩
    obtain ⟨f, w, h⟩ := a
    by_cases hf : env.saveFails (outPath f) = true
    · simp [writeEntriesV, hf]
    · simp only [Bool.not_eq_true] at hf
      simp only [writeEntriesV, hf, Bool.false_eq_true, if_false]
      rcases List.mem_cons.mp he with rfl | hrest
      · exact absurd hef (by simp [hf])
      · exact ih _ _ ⟨e, hrest, hef⟩

lemma writeEntriesV_no_unlink (env : Env) (base : Image) :
    ∀ (l : List (String × Nat × Nat)) (fs : FS) (tr : List Ev),
      Ev.unlinkTemp ∉ tr → Ev.unlinkTemp ∉ (writeEntriesV env base l fs tr).2.2 := by
  intro l
  induction l with
  | nil => intro fs tr h; exact h
  | cons a rest ih =>
    intro fs tr h
    obtain ⟨f, w, ht⟩ := a
    have h2 : Ev.unlinkTemp ∉ tr ++ [Ev.resample f w ht] := by
      simp [List.mem_append, h]
    by_cases hf : env.saveFails (outPath f) = true
    · simpa [writeEntriesV, hf] using h2
    · simp only [Bool.not_eq_true] at hf
      simp only [writeEntriesV, hf, Bool.false_eq_true, if_false]
      apply ih
      simp [List.mem_append, h]

/-- Claim C9: in the vector variant, `public/temp_icon.png` is written
during base-image acquisition; on a fully successful run it is unlinked
(the final state has no file there, and the unlink event occurred), while
if a save raises after rasterization and before the cleanup, the run
fails, the temporary file is left on disk with the rasterized content,
and no unlink happens. -/
theorem C9_theorem (env : Env) (fs0 : FS) (s : String)
    (hp : env.pillow = true) (hc : env.cairosvg = true)
    (hr : env.rasterFails = false)
    (hsvg : fs0.files "public/favicon.svg" = some (Bytes.svgFile s)) :
    ((env.saveFails = fun _ => false) →
      (generateIcons env fs0).exitCode = 0 ∧
      (generateIcons env fs0).fs.files "public/temp_icon.png" = none ∧
      Ev.unlinkTemp ∈ (generateIcons env fs0).trace) ∧
    ((∃ j, j < 4 ∧ env.saveFails (vOutPaths.getD j "") = true) →
      (generateIcons env fs0).exitCode = 1 ∧
      (generateIcons env fs0).fs.files "public/temp_icon.png" =
        some (Bytes.cairoPng (vBase s)) ∧
      Ev.unlinkTemp ∉ (generateIcons env fs0).trace) := by
  constructor
  · intro hs
    rw [generateIcons_success env fs0 s hp hc hr hs hsvg]
    refine ⟨rfl, ?_, ?_⟩
    · simp [vSuccessFS, FS.erase]
    · show Ev.unlinkTemp ∈ vSuccessTrace
      decide
  · rintro ⟨j, hj, hjf⟩
    have hex : ∃ e ∈ SIZES, env.saveFails (outPath e.1) = true := by
      interval_cases j
      · exact ⟨("favicon.ico", 64, 64), by simp [SIZES], hjf⟩
      · exact ⟨("icons/apple-touch-icon.png", 180, 180), by simp [SIZES], hjf⟩
      · exact ⟨("icons/icon-192x192.png", 192, 192), by simp [SIZES], hjf⟩
      · exact ⟨("icons/icon-512x512.png", 512, 512), by simp [SIZES], hjf⟩
    have hsvg1 : (fs0.mkdirIcons).files "public/favicon.svg" =
        some (Bytes.svgFile s) := hsvg
    simp only [generateIcons, hp, hc, Bool.and_self, if_true, hsvg1, rasterize, hr,
      Bool.false_eq_true, if_false]
    have hfail := writeEntriesV_fails_of env (.rasterizedSvg s 512 512) SIZES
      ((fs0.mkdirIcons).write "public/temp_icon.png" (.cairoPng (.rasterizedSvg s 512 512)))
      [Ev.mkdirIcons, Ev.checkSvg true, Ev.rasterize, Ev.openBase] hex
    have hstab := writeEntriesV_files_stable env (.rasterizedSvg s 512 512)
      "public/temp_icon.png" SIZES
      ((fs0.mkdirIcons).write "public/temp_icon.png" (.cairoPng (.rasterizedSvg s 512 512)))
      [Ev.mkdirIcons, Ev.checkSvg true, Ev.rasterize, Ev.openBase] (by decide)
    have hnl := writeEntriesV_no_unlink env (.rasterizedSvg s 512 512) SIZES
      ((fs0.mkdirIcons).write "public/temp_icon.png" (.cairoPng (.rasterizedSvg s 512 512)))
      [Ev.mkdirIcons, Ev.checkSvg true, Ev.rasterize, Ev.openBase] (by decide)
    rcases hw : writeEntriesV env (.rasterizedSvg s 512 512) SIZES
      ((fs0.mkdirIcons).write "public/temp_icon.png" (.cairoPng (.rasterizedSvg s 512 512)))
      [Ev.mkdirIcons, Ev.checkSvg true, Ev.rasterize, Ev.openBase] with ⟨ok, fs3, tr⟩
    rw [hw] at hfail hstab hnl
    simp only at hfail
    subst hfail
    refine ⟨rfl, ?_, ?_⟩
    · simp only at hstab
      rw [hstab]
      simp [FS.write, vBase]
    · simpa using hnl

/-- Claim C9: witness: a successful concrete run, and a run failing at the
first table entry. -/
theorem C9_witness :
    envFailFirst.pillow = true ∧ envFailFirst.cairosvg = true ∧
    envFailFirst.rasterFails = false ∧
    (fsWithSvg "t").files "public/favicon.svg" = some (Bytes.svgFile "t") ∧
    (((envFailFirst.saveFails = fun _ => false) →
       (generateIcons envFailFirst (fsWithSvg "t")).exitCode = 0 ∧
       (generateIcons envFailFirst (fsWithSvg "t")).fs.files "public/temp_icon.png" = none ∧
       Ev.unlinkTemp ∈ (generateIcons envFailFirst (fsWithSvg "t")).trace) ∧
     ((∃ j, j < 4 ∧ envFailFirst.saveFails (vOutPaths.getD j "") = true) →
       (generateIcons envFailFirst (fsWithSvg "t")).exitCode = 1 ∧
       (generateIcons envFailFirst (fsWithSvg "t")).fs.files "public/temp_icon.png" =
         some (Bytes.cairoPng (vBase "t")) ∧
       Ev.unlinkTemp ∉ (generateIcons envFailFirst (fsWithSvg "t")).trace)) :=
  ⟨rfl, rfl, rfl, rfl, C9_theorem envFailFirst (fsWithSvg "t") "t" rfl rfl rfl rfl⟩

/-! ## C5 -/

lemma endsIco_favicon : endsWithStr "favicon.ico" ".ico" = true := by decide

lemma endsIco_apple : endsWithStr "icons/apple-touch-icon.png" ".ico" = false := by decide

lemma endsIco_192 : endsWithStr "icons/icon-192x192.png" ".ico" = false := by decide

lemma endsIco_512 : endsWithStr "icons/icon-512x512.png" ".ico" = false := by decide

lemma generateIcons_failAt (env : Env) (fs0 : FS) (s : String) (k : Nat) (hk : k < 4)
    (hp : env.pillow = true) (hc : env.cairosvg = true) (hr : env.rasterFails = false)
    (hsvg : fs0.files "public/favicon.svg" = some (Bytes.svgFile s))
    (hok : ∀ j, j < k → env.saveFails (vOutPaths.getD j "") = false)
    (hbad : env.saveFails (vOutPaths.getD k "") = true) :
    (generateIcons env fs0).exitCode = 1 ∧
    (generateIcons env fs0).errorPrinted = true ∧
    (∀ j, j < k → (generateIcons env fs0).fs.files (vOutPaths.getD j "") =
        some ((vOutBytes (vBase s)).getD j (Bytes.blob 0))) ∧
    (∀ j, k ≤ j → j < 4 → (generateIcons env fs0).fs.files (vOutPaths.getD j "") =
        fs0.files (vOutPaths.getD j "")) ∧
    (generateIcons env fs0).trace.Nodup := by
  have hsvg1 : (fs0.mkdirIcons).files "public/favicon.svg" = some (Bytes.svgFile s) := hsvg
  interval_cases k
  · have ebad : env.saveFails "public/favicon.ico" = true := hbad
    have hrun : generateIcons env fs0 =
      { exitCode := 1,
        fs := (fs0.mkdirIcons.write "public/temp_icon.png" (Bytes.cairoPng (Image.rasterizedSvg s 512 512))),
        trace := [Ev.mkdirIcons,
          Ev.checkSvg true,
          Ev.rasterize,
          Ev.openBase,
          Ev.resample "favicon.ico" 64 64],
        instructionsPrinted := false, errorPrinted := true } := by
      simp [generateIcons, hp, hc, hsvg1, rasterize, hr, writeEntriesV, SIZES, outPath,
        ebad, endsIco_favicon, endsIco_apple, endsIco_192, endsIco_512]
    refine ⟨by rw [hrun], by rw [hrun], ?_, ?_, ?_⟩
    · intro j hj
      exact absurd hj (by omega)
    · intro j h1 h2
      interval_cases j <;>
        (rw [hrun]; simp [FS.write, FS.mkdirIcons, vOutPaths])
    · rw [hrun]
      show List.Nodup [Ev.mkdirIcons, Ev.checkSvg true, Ev.rasterize, Ev.openBase, Ev.resample "favicon.ico" 64 64]
      decide
  · have e0 : env.saveFails "public/favicon.ico" = false := hok 0 (by omega)
    have ebad : env.saveFails "public/icons/apple-touch-icon.png" = true := hbad
    have hrun : generateIcons env fs0 =
      { exitCode := 1,
        fs := ((fs0.mkdirIcons.write "public/temp_icon.png" (Bytes.cairoPng (Image.rasterizedSvg s 512 512))).write "public/favicon.ico" (Bytes.icoFile (Image.resized (Image.rasterizedSvg s 512 512) 64 64 ResampleFilter.lanczos) (some [(64, 64)]))),
        trace := [Ev.mkdirIcons,
          Ev.checkSvg true,
          Ev.rasterize,
          Ev.openBase,
          Ev.resample "favicon.ico" 64 64,
          Ev.save "favicon.ico",
          Ev.resample "icons/apple-touch-icon.png" 180 180],
        instructionsPrinted := false, errorPrinted := true } := by
      simp [generateIcons, hp, hc, hsvg1, rasterize, hr, writeEntriesV, SIZES, outPath,
        e0, ebad, endsIco_favicon, endsIco_apple, endsIco_192, endsIco_512]
    refine ⟨by rw [hrun], by rw [hrun], ?_, ?_, ?_⟩
    · intro j hj
      interval_cases j <;>
        (rw [hrun]; simp [FS.write, FS.mkdirIcons, vOutPaths, vOutBytes, vBase, List.getD])
    · intro j h1 h2
      interval_cases j <;>
        (rw [hrun]; simp [FS.write, FS.mkdirIcons, vOutPaths])
    · rw [hrun]
      show List.Nodup [Ev.mkdirIcons, Ev.checkSvg true, Ev.rasterize, Ev.openBase, Ev.resample "favicon.ico" 64 64, Ev.save "favicon.ico", Ev.resample "icons/apple-touch-icon.png" 180 180]
      decide
  · have e0 : env.saveFails "public/favicon.ico" = false := hok 0 (by omega)
    have e1 : env.saveFails "public/icons/apple-touch-icon.png" = false := hok 1 (by omega)
    have ebad : env.saveFails "public/icons/icon-192x192.png" = true := hbad
    have hrun : generateIcons env fs0 =
      { exitCode := 1,
        fs := (((fs0.mkdirIcons.write "public/temp_icon.png" (Bytes.cairoPng (Image.rasterizedSvg s 512 512))).write "public/favicon.ico" (Bytes.icoFile (Image.resized (Image.rasterizedSvg s 512 512) 64 64 ResampleFilter.lanczos) (some [(64, 64)]))).write "public/icons/apple-touch-icon.png" (Bytes.pngFile (Image.resized (Image.rasterizedSvg s 512 512) 180 180 ResampleFilter.lanczos) true)),
        trace := [Ev.mkdirIcons,
          Ev.checkSvg true,
          Ev.rasterize,
          Ev.openBase,
          Ev.resample "favicon.ico" 64 64,
          Ev.save "favicon.ico",
          Ev.resample "icons/apple-touch-icon.png" 180 180,
          Ev.save "icons/apple-touch-icon.png",
          Ev.resample "icons/icon-192x192.png" 192 192],
        instructionsPrinted := false, errorPrinted := true } := by
      simp [generateIcons, hp, hc, hsvg1, rasterize, hr, writeEntriesV, SIZES, outPath,
        e0, e1, ebad, endsIco_favicon, endsIco_apple, endsIco_192, endsIco_512]
    refine ⟨by rw [hrun], by rw [hrun], ?_, ?_, ?_⟩
    · intro j hj
      interval_cases j <;>
        (rw [hrun]; simp [FS.write, FS.mkdirIcons, vOutPaths, vOutBytes, vBase, List.getD])
    · intro j h1 h2
      interval_cases j <;>
        (rw [hrun]; simp [FS.write, FS.mkdirIcons, vOutPaths])
    · rw [hrun]
      show List.Nodup [Ev.mkdirIcons, Ev.checkSvg true, Ev.rasterize, Ev.openBase, Ev.resample "favicon.ico" 64 64, Ev.save "favicon.ico", Ev.resample "icons/apple-touch-icon.png" 180 180, Ev.save "icons/apple-touch-icon.png", Ev.resample "icons/icon-192x192.png" 192 192]
      decide
  · have e0 : env.saveFails "public/favicon.ico" = false := hok 0 (by omega)
    have e1 : env.saveFails "public/icons/apple-touch-icon.png" = false := hok 1 (by omega)
    have e2 : env.saveFails "public/icons/icon-192x192.png" = false := hok 2 (by omega)
    have ebad : env.saveFails "public/icons/icon-512x512.png" = true := hbad
    have hrun : generateIcons env fs0 =
      { exitCode := 1,
        fs := ((((fs0.mkdirIcons.write "public/temp_icon.png" (Bytes.cairoPng (Image.rasterizedSvg s 512 512))).write "public/favicon.ico" (Bytes.icoFile (Image.resized (Image.rasterizedSvg s 512 512) 64 64 ResampleFilter.lanczos) (some [(64, 64)]))).write "public/icons/apple-touch-icon.png" (Bytes.pngFile (Image.resized (Image.rasterizedSvg s 512 512) 180 180 ResampleFilter.lanczos) true)).write "public/icons/icon-192x192.png" (Bytes.pngFile (Image.resized (Image.rasterizedSvg s 512 512) 192 192 ResampleFilter.lanczos) true)),
        trace := [Ev.mkdirIcons,
          Ev.checkSvg true,
          Ev.rasterize,
          Ev.openBase,
          Ev.resample "favicon.ico" 64 64,
          Ev.save "favicon.ico",
          Ev.resample "icons/apple-touch-icon.png" 180 180,
          Ev.save "icons/apple-touch-icon.png",
          Ev.resample "icons/icon-192x192.png" 192 192,
          Ev.save "icons/icon-192x192.png",
          Ev.resample "icons/icon-512x512.png" 512 512],
        instructionsPrinted := false, errorPrinted := true } := by
      simp [generateIcons, hp, hc, hsvg1, rasterize, hr, writeEntriesV, SIZES, outPath,
        e0, e1, e2, ebad, endsIco_favicon, endsIco_apple, endsIco_192, endsIco_512]
    refine ⟨by rw [hrun], by rw [hrun], ?_, ?_, ?_⟩
    · intro j hj
      interval_cases j <;>
        (rw [hrun]; simp [FS.write, FS.mkdirIcons, vOutPaths, vOutBytes, vBase, List.getD])
    · intro j h1 h2
      interval_cases j <;>
        (rw [hrun]; simp [FS.write, FS.mkdirIcons, vOutPaths])
    · rw [hrun]
      show List.Nodup [Ev.mkdirIcons, Ev.checkSvg true, Ev.rasterize, Ev.openBase, Ev.resample "favicon.ico" 64 64, Ev.save "favicon.ico", Ev.resample "icons/apple-touch-icon.png" 180 180, Ev.save "icons/apple-touch-icon.png", Ev.resample "icons/icon-192x192.png" 192 192, Ev.save "icons/icon-192x192.png", Ev.resample "icons/icon-512x512.png" 512 512]
      decide

lemma generateSimpleIcons_failAt (env : Env) (fs0 : FS) (k : Nat) (hk : k < 4)
    (hp : env.pillow = true) (hd : env.drawFails = false)
    (hok : ∀ j, j < k → env.saveFails (sOutPaths.getD j "") = false)
    (hbad : env.saveFails (sOutPaths.getD k "") = true) :
    (generateSimpleIcons env fs0).exitCode = 1 ∧
    (generateSimpleIcons env fs0).errorPrinted = true ∧
    (∀ j, j < k → (generateSimpleIcons env fs0).fs.files (sOutPaths.getD j "") =
        some (sOutBytes.getD j (Bytes.blob 0))) ∧
    (∀ j, k ≤ j → j < 4 → (generateSimpleIcons env fs0).fs.files (sOutPaths.getD j "") =
        fs0.files (sOutPaths.getD j "")) ∧
    (generateSimpleIcons env fs0).trace.Nodup := by
  interval_cases k
  · have ebad : env.saveFails "public/icons/icon-512x512.png" = true := hbad
    have hrun : generateSimpleIcons env fs0 =
      { exitCode := 1,
        fs := fs0.mkdirIcons,
        trace := [Ev.mkdirIcons, Ev.drawBase],
        instructionsPrinted := false, errorPrinted := true } := by
      simp [generateSimpleIcons, hp, hd, writeEntriesS, simpleSizes, outPath,
        ebad, endsIco_favicon, endsIco_apple, endsIco_192, endsIco_512]
    refine ⟨by rw [hrun], by rw [hrun], ?_, ?_, ?_⟩
    · intro j hj
      exact absurd hj (by omega)
    · intro j h1 h2
      interval_cases j <;>
        (rw [hrun]; simp [FS.write, FS.mkdirIcons, sOutPaths])
    · rw [hrun]
      show List.Nodup [Ev.mkdirIcons, Ev.drawBase]
      decide
  · have e0 : env.saveFails "public/icons/icon-512x512.png" = false := hok 0 (by omega)
    have ebad : env.saveFails "public/favicon.ico" = true := hbad
    have hrun : generateSimpleIcons env fs0 =
      { exitCode := 1,
        fs := (fs0.mkdirIcons.write "public/icons/icon-512x512.png" (Bytes.pngFile (Image.sparkleCanvas 512) false)),
        trace := [Ev.mkdirIcons, Ev.drawBase, Ev.save "icons/icon-512x512.png", Ev.resample "favicon.ico" 64 64],
        instructionsPrinted := false, errorPrinted := true } := by
      simp [generateSimpleIcons, hp, hd, writeEntriesS, simpleSizes, outPath,
        e0, ebad, endsIco_favicon, endsIco_apple, endsIco_192, endsIco_512]
    refine ⟨by rw [hrun], by rw [hrun], ?_, ?_, ?_⟩
    · intro j hj
      interval_cases j <;>
        (rw [hrun]; simp [FS.write, FS.mkdirIcons, sOutPaths, sOutBytes, List.getD])
    · intro j h1 h2
      interval_cases j <;>
        (rw [hrun]; simp [FS.write, FS.mkdirIcons, sOutPaths])
    · rw [hrun]
      show List.Nodup [Ev.mkdirIcons, Ev.drawBase, Ev.save "icons/icon-512x512.png", Ev.resample "favicon.ico" 64 64]
      decide
  · have e0 : env.saveFails "public/icons/icon-512x512.png" = false := hok 0 (by omega)
    have e1 : env.saveFails "public/favicon.ico" = false := hok 1 (by omega)
    have ebad : env.saveFails "public/icons/icon-192x192.png" = true := hbad
    have hrun : generateSimpleIcons env fs0 =
      { exitCode := 1,
        fs := ((fs0.mkdirIcons.write "public/icons/icon-512x512.png" (Bytes.pngFile (Image.sparkleCanvas 512) false)).write "public/favicon.ico" (Bytes.icoFile (Image.resized (Image.sparkleCanvas 512) 64 64 ResampleFilter.lanczos) none)),
        trace := [Ev.mkdirIcons, Ev.drawBase, Ev.save "icons/icon-512x512.png", Ev.resample "favicon.ico" 64 64, Ev.save "favicon.ico", Ev.resample "icons/icon-192x192.png" 192 192],
        instructionsPrinted := false, errorPrinted := true } := by
      simp [generateSimpleIcons, hp, hd, writeEntriesS, simpleSizes, outPath,
        e0, e1, ebad, endsIco_favicon, endsIco_apple, endsIco_192, endsIco_512]
    refine ⟨by rw [hrun], by rw [hrun], ?_, ?_, ?_⟩
    · intro j hj
      interval_cases j <;>
        (rw [hrun]; simp [FS.write, FS.mkdirIcons, sOutPaths, sOutBytes, List.getD])
    · intro j h1 h2
      interval_cases j <;>
        (rw [hrun]; simp [FS.write, FS.mkdirIcons, sOutPaths])
    · rw [hrun]
      show List.Nodup [Ev.mkdirIcons, Ev.drawBase, Ev.save "icons/icon-512x512.png", Ev.resample "favicon.ico" 64 64, Ev.save "favicon.ico", Ev.resample "icons/icon-192x192.png" 192 192]
      decide
  · have e0 : env.saveFails "public/icons/icon-512x512.png" = false := hok 0 (by omega)
    have e1 : env.saveFails "public/favicon.ico" = false := hok 1 (by omega)
    have e2 : env.saveFails "public/icons/icon-192x192.png" = false := hok 2 (by omega)
    have ebad : env.saveFails "public/icons/apple-touch-icon.png" = true := hbad
    have hrun : generateSimpleIcons env fs0 =
      { exitCode := 1,
        fs := (((fs0.mkdirIcons.write "public/icons/icon-512x512.png" (Bytes.pngFile (Image.sparkleCanvas 512) false)).write "public/favicon.ico" (Bytes.icoFile (Image.resized (Image.sparkleCanvas 512) 64 64 ResampleFilter.lanczos) none)).write "public/icons/icon-192x192.png" (Bytes.pngFile (Image.resized (Image.sparkleCanvas 512) 192 192 ResampleFilter.lanczos) false)),
        trace := [Ev.mkdirIcons, Ev.drawBase, Ev.save "icons/icon-512x512.png", Ev.resample "favicon.ico" 64 64, Ev.save "favicon.ico", Ev.resample "icons/icon-192x192.png" 192 192, Ev.save "icons/icon-192x192.png", Ev.resample "icons/apple-touch-icon.png" 180 180],
        instructionsPrinted := false, errorPrinted := true } := by
      simp [generateSimpleIcons, hp, hd, writeEntriesS, simpleSizes, outPath,
        e0, e1, e2, ebad, endsIco_favicon, endsIco_apple, endsIco_192, endsIco_512]
    refine ⟨by rw [hrun], by rw [hrun], ?_, ?_, ?_⟩
    · intro j hj
      interval_cases j <;>
        (rw [hrun]; simp [FS.write, FS.mkdirIcons, sOutPaths, sOutBytes, List.getD])
    · intro j h1 h2
      interval_cases j <;>
        (rw [hrun]; simp [FS.write, FS.mkdirIcons, sOutPaths])
    · rw [hrun]
      show List.Nodup [Ev.mkdirIcons, Ev.drawBase, Ev.save "icons/icon-512x512.png", Ev.resample "favicon.ico" 64 64, Ev.save "favicon.ico", Ev.resample "icons/icon-192x192.png" 192 192, Ev.save "icons/icon-192x192.png", Ev.resample "icons/apple-touch-icon.png" 180 180]
      decide

/-- Claim C5: in either variant, if the resize-and-save of any size-table
entry raises (the first raising entry being entry `kv` resp. `ks` in
write order), the exception is handled only by the top-level handler: an
error message is printed, the process exits non-zero, the outputs of all
earlier table entries remain on disk with exactly the content written,
the remaining entries' paths are untouched, and no operation is ever
retried (the event trace has no duplicate). -/
theorem C5_theorem (env : Env) (fs0 : FS) (s : String) (kv ks : Nat)
    (hkv : kv < 4) (hks : ks < 4)
    (hp : env.pillow = true) (hc : env.cairosvg = true)
    (hr : env.rasterFails = false) (hd : env.drawFails = false)
    (hsvg : fs0.files "public/favicon.svg" = some (Bytes.svgFile s))
    (hvok : ∀ j, j < kv → env.saveFails (vOutPaths.getD j "") = false)
    (hvbad : env.saveFails (vOutPaths.getD kv "") = true)
    (hsok : ∀ j, j < ks → env.saveFails (sOutPaths.getD j "") = false)
    (hsbad : env.saveFails (sOutPaths.getD ks "") = true) :
    ((generateIcons env fs0).exitCode = 1 ∧
     (generateIcons env fs0).errorPrinted = true ∧
     (∀ j, j < kv → (generateIcons env fs0).fs.files (vOutPaths.getD j "") =
         some ((vOutBytes (vBase s)).getD j (Bytes.blob 0))) ∧
     (∀ j, kv ≤ j → j < 4 → (generateIcons env fs0).fs.files (vOutPaths.getD j "") =
         fs0.files (vOutPaths.getD j "")) ∧
     (generateIcons env fs0).trace.Nodup) ∧
    ((generateSimpleIcons env fs0).exitCode = 1 ∧
     (generateSimpleIcons env fs0).errorPrinted = true ∧
     (∀ j, j < ks → (generateSimpleIcons env fs0).fs.files (sOutPaths.getD j "") =
         some (sOutBytes.getD j (Bytes.blob 0))) ∧
     (∀ j, ks ≤ j → j < 4 → (generateSimpleIcons env fs0).fs.files (sOutPaths.getD j "") =
         fs0.files (sOutPaths.getD j "")) ∧
     (generateSimpleIcons env fs0).trace.Nodup) ∧
    (∀ env2 : Env, env2.pillow = true → env2.cairosvg = true →
      env2.rasterFails = true → ∀ fs2 : FS,
      fs2.files "public/favicon.svg" = some (Bytes.svgFile s) →
      (generateIcons env2 fs2).exitCode = 1 ∧
      (generateIcons env2 fs2).errorPrinted = true ∧
      (generateIcons env2 fs2).fs.files = fs2.files) ∧
    (∀ env2 : Env, env2.pillow = true → env2.drawFails = true → ∀ fs2 : FS,
      (generateSimpleIcons env2 fs2).exitCode = 1 ∧
      (generateSimpleIcons env2 fs2).errorPrinted = true ∧
      (generateSimpleIcons env2 fs2).fs.files = fs2.files) := by
  refine ⟨generateIcons_failAt env fs0 s kv hkv hp hc hr hsvg hvok hvbad,
    generateSimpleIcons_failAt env fs0 ks hks hp hd hsok hsbad, ?_, ?_⟩
  · intro env2 hp2 hc2 hr2 fs2 hsvg2
    refine ⟨?_, ?_, ?_⟩ <;>
      simp [generateIcons, hp2, hc2, FS.mkdirIcons, hsvg2, rasterize, hr2]
  · intro env2 hp2 hd2 fs2
    refine ⟨?_, ?_, ?_⟩ <;>
      simp [generateSimpleIcons, hp2, hd2, FS.mkdirIcons]

/-- Claim C5: witness: both variants failing at their first write. -/
theorem C5_witness :
    (0 < 4) ∧
    envFailFirst.saveFails (vOutPaths.getD 0 "") = true ∧
    envFailFirst.saveFails (sOutPaths.getD 0 "") = true ∧
    (((generateIcons envFailFirst (fsWithSvg "e")).exitCode = 1 ∧
     (generateIcons envFailFirst (fsWithSvg "e")).errorPrinted = true ∧
     (∀ j, j < 0 → (generateIcons envFailFirst (fsWithSvg "e")).fs.files (vOutPaths.getD j "") =
         some ((vOutBytes (vBase "e")).getD j (Bytes.blob 0))) ∧
     (∀ j, 0 ≤ j → j < 4 → (generateIcons envFailFirst (fsWithSvg "e")).fs.files (vOutPaths.getD j "") =
         (fsWithSvg "e").files (vOutPaths.getD j "")) ∧
     (generateIcons envFailFirst (fsWithSvg "e")).trace.Nodup) ∧
    ((generateSimpleIcons envFailFirst (fsWithSvg "e")).exitCode = 1 ∧
     (generateSimpleIcons envFailFirst (fsWithSvg "e")).errorPrinted = true ∧
     (∀ j, j < 0 → (generateSimpleIcons envFailFirst (fsWithSvg "e")).fs.files (sOutPaths.getD j "") =
         some (sOutBytes.getD j (Bytes.blob 0))) ∧
     (∀ j, 0 ≤ j → j < 4 → (generateSimpleIcons envFailFirst (fsWithSvg "e")).fs.files (sOutPaths.getD j "") =
         (fsWithSvg "e").files (sOutPaths.getD j "")) ∧
     (generateSimpleIcons envFailFirst (fsWithSvg "e")).trace.Nodup) ∧
    (∀ env2 : Env, env2.pillow = true → env2.cairosvg = true →
      env2.rasterFails = true → ∀ fs2 : FS,
      fs2.files "public/favicon.svg" = some (Bytes.svgFile "e") →
      (generateIcons env2 fs2).exitCode = 1 ∧
      (generateIcons env2 fs2).errorPrinted = true ∧
      (generateIcons env2 fs2).fs.files = fs2.files) ∧
    (∀ env2 : Env, env2.pillow = true → env2.drawFails = true → ∀ fs2 : FS,
      (generateSimpleIcons env2 fs2).exitCode = 1 ∧
      (generateSimpleIcons env2 fs2).errorPrinted = true ∧
      (generateSimpleIcons env2 fs2).fs.files = fs2.files)) :=
  ⟨by decide, by decide, by decide,
   C5_theorem envFailFirst (fsWithSvg "e") "e" 0 0 (by decide) (by decide)
     rfl rfl rfl rfl rfl
     (fun j hj => absurd hj (by omega)) (by decide)
     (fun j hj => absurd hj (by omega)) (by decide)⟩

end DailySpark
